import Mathlib

/-!
Shallow embedding of `src/bigearthnet/pl_modules/lightning_module.py`
(class `LitModel`): epoch-level metric aggregation, diagnostic emission
and best-metric tracking for a multi-label classifier.

Scalars (losses, logits, metric values) are modelled as rationals;
binary label matrices as `List (List Bool)` (rows = samples, columns =
classes).  `sigmoid(x) > 0.5` is equivalent to `x > 0` (sigmoid is
strictly increasing with `sigmoid 0 = 1/2`), so thresholding is modelled
exactly on the logits.
-/

namespace BigEarthNet

/-- Output of `LitModel._generic_step` for one batch: scalar loss, binary
target matrix and real logit matrix (rows = samples in the batch). -/
structure StepOutput where
  loss : ℚ
  targets : List (List Bool)
  logits : List (List ℚ)
deriving Repr, DecidableEq

/-- Threshold one logit row: `sigmoid(x) > 0.5` iff `x > 0`
(`preds = torch.sigmoid(logits) > 0.5`, line 80). -/
def predRow (row : List ℚ) : List Bool :=
  row.map (fun x => decide ((0 : ℚ) < x))

/-- `all_targets`: concatenation of the target rows of every step output
(lines 74-81). -/
def allTargets (steps : List StepOutput) : List (List Bool) :=
  (steps.map (fun s => s.targets)).flatten

/-- `all_preds`: concatenation of the thresholded prediction rows of every
step output (lines 75-82). -/
def allPreds (steps : List StepOutput) : List (List Bool) :=
  (steps.map (fun s => s.logits.map predRow)).flatten

/-- Total number of samples aggregated in the epoch. -/
def totalSamples (steps : List StepOutput) : ℕ :=
  (allTargets steps).length

/-- True positives over paired (target, prediction) booleans. -/
def countTP (ts ps : List Bool) : ℕ :=
  (ts.zip ps).countP (fun q => q.1 && q.2)

/-- False positives over paired (target, prediction) booleans. -/
def countFP (ts ps : List Bool) : ℕ :=
  (ts.zip ps).countP (fun q => !q.1 && q.2)

/-- False negatives over paired (target, prediction) booleans. -/
def countFN (ts ps : List Bool) : ℕ :=
  (ts.zip ps).countP (fun q => q.1 && !q.2)

/-- True negatives over paired (target, prediction) booleans. -/
def countTN (ts ps : List Bool) : ℕ :=
  (ts.zip ps).countP (fun q => !q.1 && !q.2)

/-- Precision `TP / (TP + FP)` with sklearn's zero-division convention:
`0` when there is no predicted positive. -/
def precisionOf (ts ps : List Bool) : ℚ :=
  let tp := countTP ts ps
  let fp := countFP ts ps
  if tp + fp = 0 then 0 else (tp : ℚ) / (tp + fp)

/-- Recall `TP / (TP + FN)` with sklearn's zero-division convention:
`0` when there is no actual positive. -/
def recallOf (ts ps : List Bool) : ℚ :=
  let tp := countTP ts ps
  let fn := countFN ts ps
  if tp + fn = 0 then 0 else (tp : ℚ) / (tp + fn)

/-- F1 `2PR / (P + R)`, `0` when `P + R = 0`. -/
def f1Of (ts ps : List Bool) : ℚ :=
  let p := precisionOf ts ps
  let r := recallOf ts ps
  if p + r = 0 then 0 else 2 * p * r / (p + r)

/-- One per-class 2×2 confusion matrix `[[TN, FP], [FN, TP]]`, as returned
by `sklearn.metrics.multilabel_confusion_matrix`. -/
structure ConfMat where
  tn : ℕ
  fp : ℕ
  fn : ℕ
  tp : ℕ
deriving Repr, DecidableEq

/-- Column `c` of a binary matrix given as a list of rows. -/
def col (c : ℕ) (m : List (List Bool)) : List Bool :=
  m.map (fun r => r.getD c false)

/-- Confusion matrix for one class from its paired target/prediction column. -/
def confMatOf (ts ps : List Bool) : ConfMat :=
  ⟨countTN ts ps, countFP ts ps, countFN ts ps, countTP ts ps⟩

/-- `multilabel_confusion_matrix(y_true, y_pred)`: one 2×2 matrix per class
column (line 91). -/
def multilabelConfusionMatrix (t p : List (List Bool)) (n : ℕ) : List ConfMat :=
  (List.range n).map (fun c => confMatOf (col c t) (col c p))

/-- One row of the per-class `classification_report`: precision, recall,
F1 and support (number of actual positives) for one class. -/
structure ClassStats where
  precision : ℚ
  «recall» : ℚ
  f1_score : ℚ
  support : ℕ
deriving Repr, DecidableEq

/-- Per-class report entry from the paired target/prediction column. -/
def classStatsOf (ts ps : List Bool) : ClassStats :=
  ⟨precisionOf ts ps, recallOf ts ps, f1Of ts ps, ts.countP id⟩

/-- The metrics dictionary built by `LitModel._generic_epoch_end`
(lines 96-103). -/
structure MetricsBundle where
  precision : ℚ
  «recall» : ℚ
  f1_score : ℚ
  loss : ℚ
  conf_mats : List ConfMat
  report : List ClassStats
deriving Repr, DecidableEq

/-- Number of classes, inferred from the width of the aggregated target
matrix (the numpy arrays' second dimension). -/
def numClasses (steps : List StepOutput) : ℕ :=
  ((allTargets steps).headD []).length

/-- Shape well-formedness that sklearn enforces on the aggregated arrays:
every target row and every logit row has width `n`, and each batch has as
many logit rows as target rows. -/
def wfSteps (n : ℕ) (steps : List StepOutput) : Bool :=
  steps.all (fun s =>
    s.targets.all (fun r => r.length == n) &&
    s.logits.all (fun r => r.length == n) &&
    (s.logits.length == s.targets.length))

/-- The metrics dictionary assembled on the success path of
`LitModel._generic_epoch_end` (lines 87-103): micro-averaged scalars over
the flattened target/prediction pairs, mean of the per-batch losses
(each batch weighted equally), per-class confusion matrices and the
per-class report. -/
def epochBundle (steps : List StepOutput) : MetricsBundle :=
  { precision := precisionOf (allTargets steps).flatten (allPreds steps).flatten
    «recall» := recallOf (allTargets steps).flatten (allPreds steps).flatten
    f1_score := f1Of (allTargets steps).flatten (allPreds steps).flatten
    loss := (steps.map (fun s => s.loss)).sum / (steps.length : ℚ)
    conf_mats :=
      multilabelConfusionMatrix (allTargets steps) (allPreds steps) (numClasses steps)
    report :=
      (List.range (numClasses steps)).map
        (fun c => classStatsOf (col c (allTargets steps)) (col c (allPreds steps))) }

/-- `LitModel._generic_epoch_end` (lines 72-104).  Returns `none` where the
Python raises: an empty phase buffer (zero samples / division by zero in
`avg_loss`), ragged or mismatched array shapes, or a class-name count that
does not match the class dimension (`classification_report` raises a
`ValueError`). -/
def genericEpochEnd (classNames : List String) (steps : List StepOutput) :
    Option MetricsBundle :=
  if steps.isEmpty then none
  else if wfSteps (numClasses steps) steps then
    if classNames.length = numClasses steps then some (epochBundle steps)
    else none
  else none

/-- `cfg.monitor`: the monitored metric's comparison mode and name. -/
structure MonitorConfig where
  mode : String
  name : String
deriving Repr, DecidableEq

/-- The `init_metrics` values set in `LitModel.on_train_start`
(lines 34-39): loss `99999`, the other three scalars `0`.  `best_metric`
is initialized to the entry for the monitored name (line 43). -/
def initMetrics (name : String) : ℚ :=
  if name = "loss" then 99999 else 0

/-- `metrics[name]`: scalar lookup in a MetricsBundle by monitor name
(`0` is unreachable under the `on_train_start` assertion on names). -/
def metricValue (m : MetricsBundle) (name : String) : ℚ :=
  if name = "loss" then m.loss
  else if name = "precision" then m.precision
  else if name = "recall" then m.recall
  else if name = "f1_score" then m.f1_score
  else 0

/-- A Python return value: `None`, or a bool. -/
inductive PyReturn
  | pyNone
  | pyBool (b : Bool)
deriving Repr, DecidableEq

/-- What one call to `LitModel.update_best_metric` produces: the stored
best value afterwards, the local `update` flag, the `best_metrics/*`
records logged on update, and the function's Python return value. -/
structure UpdateResult where
  best : ℚ
  fired : Bool
  emitted : List (String × ℚ)
  ret : PyReturn
deriving Repr, DecidableEq

/-- `LitModel.update_best_metric` (lines 183-200).  The two separate `if`
statements on `mode` are combined into one disjunction (at most one can
hold since `mode` cannot equal both `"min"` and `"max"`).  The function
body ends without a `return`, so the Python return value is `None`. -/
def updateBestMetric (cfg : MonitorConfig) (metrics : MetricsBundle) (best : ℚ) :
    UpdateResult :=
  let v := metricValue metrics cfg.name
  let update :=
    (cfg.mode == "min" && decide (v < best)) ||
    (cfg.mode == "max" && decide (v > best))
  if update then
    { best := v
      fired := true
      emitted :=
        [("best_metrics/loss", metrics.loss),
         ("best_metrics/precision", metrics.precision),
         ("best_metrics/recall", metrics.recall),
         ("best_metrics/f1_score", metrics.f1_score)]
      ret := .pyNone }
  else
    { best := best, fired := false, emitted := [], ret := .pyNone }

/-- Iterate `update_best_metric` over a sequence of validation
MetricsBundles from a given stored best, collecting the `update` flag of
each call. -/
def trackBest (cfg : MonitorConfig) (best : ℚ) :
    List MetricsBundle → ℚ × List Bool
  | [] => (best, [])
  | m :: ms =>
    let r := updateBestMetric cfg m best
    let rest := trackBest cfg r.best ms
    (rest.1, r.fired :: rest.2)

/-- A whole run of the tracker: `best_metric` starts at the
`on_train_start` initial value for the monitored name, then one
`update_best_metric` call per validation epoch. -/
def runTracker (cfg : MonitorConfig) (bundles : List MetricsBundle) :
    ℚ × List Bool :=
  trackBest cfg (initMetrics cfg.name) bundles

/-- Spec-side formalization of "an update event fires exactly on each new
strict running maximum": starting from `b`, the event flag of each element
says whether it strictly exceeds everything before it (including `b`). -/
def runningMaxEvents (b : ℚ) : List ℚ → List Bool
  | [] => []
  | v :: vs => decide (b < v) :: runningMaxEvents (max b v) vs

/-- One scalar telemetry record (`self.log(tag, value)`). -/
structure ScalarRecord where
  tag : String
  value : ℚ
deriving Repr, DecidableEq

/-- Observable outcome of one validation phase: per-step scalar records,
epoch-end scalar records, number of `update_best_metric` invocations, and
the stored best afterwards. -/
structure ValPhaseResult where
  stepRecords : List ScalarRecord
  epochRecords : List ScalarRecord
  trackerCalls : ℕ
  best : ℚ
deriving Repr, DecidableEq

/-- One validation phase: `validation_step` (lines 123-134) logs
`loss/val` for every batch, unconditionally — also when
`trainer.sanity_checking` is set; `validation_epoch_end` (lines 136-140)
aggregates, logs the three epoch scalars of `log_metrics` (lines 153-155)
and calls `update_best_metric` only when the sanity flag is off.  An
aggregation failure propagates: no epoch records, no tracker call. -/
def runValidationEpoch (cfg : MonitorConfig) (classNames : List String)
    (sanity : Bool) (steps : List StepOutput) (best : ℚ) : ValPhaseResult :=
  let stepRecs := steps.map (fun s => ScalarRecord.mk "loss/val" s.loss)
  if sanity then
    { stepRecords := stepRecs, epochRecords := [], trackerCalls := 0, best := best }
  else
    match genericEpochEnd classNames steps with
    | none =>
      { stepRecords := stepRecs, epochRecords := [], trackerCalls := 0, best := best }
    | some m =>
      { stepRecords := stepRecs
        epochRecords :=
          [⟨"precision/val", m.precision⟩, ⟨"recall/val", m.recall⟩,
           ⟨"f1_score/val", m.f1_score⟩]
        trackerCalls := 1
        best := (updateBestMetric cfg m best).best }

/-- A configuration rejected by the `on_train_start` assertions
(spec taxonomy name: ConfigError). -/
inductive ConfigError
  | badMode (mode : String)
  | badName (name : String)
deriving Repr, DecidableEq

/-- The modes accepted by `assert mode in ["min", "max"]` (line 31). -/
def validModes : List String := ["min", "max"]

/-- The names accepted by
`assert name in ["loss", "precision", "recall", "f1_score"]` (line 32). -/
def validNames : List String := ["loss", "precision", "recall", "f1_score"]

/-- The initial placeholder best record logged by `on_train_start`
(lines 34-41). -/
def initRecords : List (String × ℚ) :=
  [("best_metrics/loss", 99999), ("best_metrics/precision", 0),
   ("best_metrics/recall", 0), ("best_metrics/f1_score", 0)]

/-- `LitModel.on_train_start` (lines 28-43): validate the monitor config
(mode checked first), log the initial placeholder record, initialize
`best_metric`. -/
def onTrainStart (cfg : MonitorConfig) :
    Except ConfigError (ℚ × List (String × ℚ)) :=
  if cfg.mode ∈ validModes then
    if cfg.name ∈ validNames then .ok (initMetrics cfg.name, initRecords)
    else .error (.badName cfg.name)
  else .error (.badMode cfg.mode)

/-- Per-step `loss/train` records of `training_step` (lines 106-117). -/
def trainStepRecords (steps : List StepOutput) : List ScalarRecord :=
  steps.map (fun s => ⟨"loss/train", s.loss⟩)

/-- A training run: `on_train_start` runs before any batch; a failed
assertion aborts the run with no batch processed.  Otherwise every batch
of every epoch is processed and logs its running loss. -/
def runTraining (cfg : MonitorConfig) (epochs : List (List StepOutput)) :
    Except ConfigError (ℕ × List ScalarRecord) :=
  match onTrainStart cfg with
  | .error e => .error e
  | .ok _ => .ok ((epochs.map List.length).sum, (epochs.map trainStepRecords).flatten)

/-- One cell of the 9×5 subplot grid of `log_metrics`: either still
axis-off (blank) or a plotted confusion matrix with a title and a
colorbar flag. -/
inductive SubplotCell
  | blank
  | plot (cm : ConfMat) (title : String) (colorbar : Bool)
deriving Repr, DecidableEq

/-- `plt.subplots(9, 5)` (line 164): 45 axes in the grid. -/
def gridSize : ℕ := 45

/-- The `zip(conf_mats, self.class_names, axs.ravel())` loop of
`log_metrics` (lines 164-175): with `n` axes left, each step consumes one
confusion matrix, one class name and one axis, plotting without colorbar
and titling with `label[0:20]`; the loop stops when any of the three is
exhausted, leaving the remaining axes blank (all were `set_axis_off`). -/
def fillCells : ℕ → List ConfMat → List String → List SubplotCell
  | 0, _, _ => []
  | n + 1, cm :: cms, name :: names =>
    .plot cm (name.take 20) false :: fillCells n cms names
  | n + 1, _, _ => List.replicate (n + 1) .blank

/-- The full subplot grid produced by one `log_metrics` call. -/
def figureCells (confMats : List ConfMat) (classNames : List String) :
    List SubplotCell :=
  fillCells gridSize confMats classNames

/-- One composite-image telemetry record
(`add_figure(f"confusion matrix/{split}", fig, self.global_step)`). -/
structure ImageRecord where
  tag : String
  step : ℕ
deriving Repr, DecidableEq

/-- The figure part of `log_metrics` (lines 161-179): the subplot grid
plus the single composite image record tagged by split and global step. -/
def logMetricsFigure (confMats : List ConfMat) (classNames : List String)
    (split : String) (step : ℕ) : List SubplotCell × ImageRecord :=
  (figureCells confMats classNames, ⟨"confusion matrix/" ++ split, step⟩)

/-- A concrete step output realizing the spec's micro-average example:
targets `[[1,0],[1,1]]`; logits `[[1,-1],[-1,1]]` threshold to the
prediction matrix `[[1,0],[0,1]]`. -/
def demoStep : StepOutput :=
  { loss := 1
    targets := [[true, false], [true, true]]
    logits := [[1, -1], [-1, 1]] }

/-- The MetricsBundle the aggregation produces on `demoStep` with two
class names. -/
def demoBundle : MetricsBundle :=
  (genericEpochEnd ["a", "b"] [demoStep]).getD ⟨0, 0, 0, 0, [], []⟩

/-- A step output whose second class is degenerate: its targets and its
thresholded predictions are all zero. -/
def degenStep : StepOutput :=
  { loss := 2
    targets := [[true, false], [true, false]]
    logits := [[1, -1], [2, -3]] }

/-- The MetricsBundle the aggregation produces on `degenStep`. -/
def degenBundle : MetricsBundle :=
  (genericEpochEnd ["a", "b"] [degenStep]).getD ⟨0, 0, 0, 0, [], []⟩

/-- A MetricsBundle with given loss/precision/recall/f1 scalars (used to
drive the best tracker, whose behaviour depends only on the scalars). -/
def mkBundle (l p r f : ℚ) : MetricsBundle :=
  ⟨p, r, f, l, [], []⟩

/-- Whether a subplot cell actually shows a confusion matrix. -/
def isPlotCell : SubplotCell → Bool
  | .blank => false
  | .plot _ _ _ => true

/-- In min mode the stored best after one call is the minimum of the old
best and the monitored value. -/
theorem updateBestMetric_min_best (name : String) (m : MetricsBundle) (b : ℚ) :
    (updateBestMetric ⟨"min", name⟩ m b).best = min b (metricValue m name) := by
  rcases lt_or_le (metricValue m name) b with h | h
  · simp [updateBestMetric, h, min_eq_right h.le,
      show (("min" : String) == "max") = false from rfl]
  · simp [updateBestMetric, not_lt.mpr h, min_eq_left h,
      show (("min" : String) == "max") = false from rfl]

/-- In max mode the stored best after one call is the maximum of the old
best and the monitored value. -/
theorem updateBestMetric_max_best (name : String) (m : MetricsBundle) (b : ℚ) :
    (updateBestMetric ⟨"max", name⟩ m b).best = max b (metricValue m name) := by
  rcases lt_or_le b (metricValue m name) with h | h
  · simp [updateBestMetric, h, max_eq_right h.le,
      show (("max" : String) == "min") = false from rfl]
  · simp [updateBestMetric, not_lt.mpr h, max_eq_left h,
      show (("max" : String) == "min") = false from rfl]

/-- In max mode the `update` flag of one call is exactly "the monitored
value strictly exceeds the stored best". -/
theorem updateBestMetric_max_fired (name : String) (m : MetricsBundle) (b : ℚ) :
    (updateBestMetric ⟨"max", name⟩ m b).fired = decide (b < metricValue m name) := by
  rcases lt_or_le b (metricValue m name) with h | h
  · simp [updateBestMetric, h,
      show (("max" : String) == "min") = false from rfl]
  · simp [updateBestMetric, not_lt.mpr h,
      show (("max" : String) == "min") = false from rfl]

/-- Iterating the tracker in min mode folds `min` over the monitored
values. -/
theorem trackBest_min_fst (name : String) (ms : List MetricsBundle) (b : ℚ) :
    (trackBest ⟨"min", name⟩ b ms).1
      = (ms.map (fun m => metricValue m name)).foldl min b := by
  induction ms generalizing b with
  | nil => rfl
  | cons m ms ih => simp [trackBest, updateBestMetric_min_best, ih]

/-- Iterating the tracker in max mode folds `max` over the monitored
values and fires exactly at the new strict running maxima. -/
theorem trackBest_max_eq (name : String) (ms : List MetricsBundle) (b : ℚ) :
    trackBest ⟨"max", name⟩ b ms
      = ((ms.map (fun m => metricValue m name)).foldl max b,
         runningMaxEvents b (ms.map (fun m => metricValue m name))) := by
  induction ms generalizing b with
  | nil => rfl
  | cons m ms ih =>
    simp [trackBest, updateBestMetric_max_best, updateBestMetric_max_fired, ih,
      runningMaxEvents]

/-- Claim C1 (counterexample): with `mode = min` and `name = loss` the
best metric is initialized to the finite value `99999`, not `+infinity`;
on the single monitored value `100000` the stored best stays `99999`,
while `min(100000, +infinity) = 100000`. -/
theorem c1_counterexample :
    initMetrics "loss" = 99999 ∧
    (runTracker ⟨"min", "loss"⟩ [mkBundle 100000 0 0 0]).1 = 99999 ∧
    (99999 : ℚ) ≠ 100000 := by decide

/-- Claim C1 (amended): with `mode = min` the best metric starts at the
`on_train_start` initial value for the monitored name (`99999` for
`loss`, `0` for the other names) and after processing any sequence of
validation MetricsBundles it equals the minimum of the monitored values
and that initial value. -/
theorem c1_min_mode_best (name : String) (bundles : List MetricsBundle) :
    (runTracker ⟨"min", name⟩ bundles).1
      = (bundles.map (fun m => metricValue m name)).foldl min (initMetrics name) :=
  trackBest_min_fst name bundles (initMetrics name)

/-- Claim C2 (counterexample): with `mode = max` and `name = loss` the
initial best is `99999`, not `0`; on the single monitored value `5` the
stored best stays `99999` (≠ `max(5, 0)`) and no update fires, although
`5` is a new strict running maximum over an initial `0`. -/
theorem c2_counterexample :
    runTracker ⟨"max", "loss"⟩ [mkBundle 5 0 0 0] = (99999, [false]) ∧
    (99999 : ℚ) ≠ max 5 0 ∧ [false] ≠ [true] := by decide

/-- Claim C2 (amended): with `mode = max` the best metric starts at the
`on_train_start` initial value for the monitored name (`0` for
`precision`/`recall`/`f1_score`, `99999` for `loss`); after any sequence
of validation MetricsBundles it equals the maximum of the monitored
values and that initial value, and an update fires exactly at each
element that is a new strict running maximum over that initial value. -/
theorem c2_max_mode (name : String) (bundles : List MetricsBundle) :
    runTracker ⟨"max", name⟩ bundles
      = ((bundles.map (fun m => metricValue m name)).foldl max (initMetrics name),
         runningMaxEvents (initMetrics name) (bundles.map (fun m => metricValue m name))) :=
  trackBest_max_eq name bundles (initMetrics name)

/-- Claim C4 (counterexample): a call that does replace the best metric
(`0` becomes `1`) still does not return the boolean `true` — the Python
function has no `return` statement, so it returns `None`. -/
theorem c4_counterexample :
    (updateBestMetric ⟨"max", "f1_score"⟩ (mkBundle 1 1 1 1) 0).best = 1 ∧
    (1 : ℚ) ≠ 0 ∧
    (updateBestMetric ⟨"max", "f1_score"⟩ (mkBundle 1 1 1 1) 0).ret
      ≠ PyReturn.pyBool true := by decide

/-- Claim C4 (amended): `update_best_metric` always returns `None`, not a
boolean; its internal `update` flag is set exactly when the stored best
metric changes. -/
theorem c4_update_returns_none (cfg : MonitorConfig) (m : MetricsBundle) (b : ℚ) :
    (updateBestMetric cfg m b).ret = PyReturn.pyNone ∧
    ((updateBestMetric cfg m b).fired = true ↔ (updateBestMetric cfg m b).best ≠ b) := by
  by_cases h : (cfg.mode == "min" && decide (metricValue m cfg.name < b)
      || cfg.mode == "max" && decide (metricValue m cfg.name > b)) = true
  · have h' := h
    simp only [Bool.or_eq_true, Bool.and_eq_true, decide_eq_true_eq] at h'
    have hne : metricValue m cfg.name ≠ b := by
      rcases h' with ⟨-, h1⟩ | ⟨-, h1⟩
      · exact h1.ne
      · exact h1.ne'
    simp [updateBestMetric, h, hne]
  · simp [updateBestMetric, h]

/-- Claim C3 (counterexample): a sanity-flagged validation phase with one
batch still produces one telemetry scalar record — the per-step
`loss/val` record of `validation_step`, which is logged unconditionally —
so the record count is not zero. -/
theorem c3_counterexample :
    (runValidationEpoch ⟨"max", "precision"⟩ ["a", "b"] true [demoStep] 0).stepRecords
      = [⟨"loss/val", 1⟩] ∧
    ([⟨"loss/val", 1⟩] : List ScalarRecord) ≠ [] := by decide

/-- Claim C3 (amended): during a validation phase flagged as a sanity
pre-check, no epoch-level scalar records are produced, the best tracker
is never invoked and the stored best is unchanged; the per-step running
loss record of `validation_step` is still emitted for every batch (its
suppression is left to the external logging framework). -/
theorem c3_sanity_exclusion (cfg : MonitorConfig) (classNames : List String)
    (steps : List StepOutput) (b : ℚ) :
    (runValidationEpoch cfg classNames true steps b).epochRecords = [] ∧
    (runValidationEpoch cfg classNames true steps b).trackerCalls = 0 ∧
    (runValidationEpoch cfg classNames true steps b).best = b ∧
    (runValidationEpoch cfg classNames true steps b).stepRecords
      = steps.map (fun s => ⟨"loss/val", s.loss⟩) := by
  simp [runValidationEpoch]

/-- Claim C5: epoch aggregation thresholds the logits at sigmoid 0.5 and
micro-averages: on targets `[[1,0],[1,1]]` and logits thresholding to
predictions `[[1,0],[0,1]]`, the summed counts are TP = 2, FP = 0,
FN = 1, giving precision 1, recall 2/3 and F1 4/5. -/
theorem c5_micro_average :
    allPreds [demoStep] = [[true, false], [false, true]] ∧
    countTP (allTargets [demoStep]).flatten (allPreds [demoStep]).flatten = 2 ∧
    countFP (allTargets [demoStep]).flatten (allPreds [demoStep]).flatten = 0 ∧
    countFN (allTargets [demoStep]).flatten (allPreds [demoStep]).flatten = 1 ∧
    (genericEpochEnd ["a", "b"] [demoStep]).map
        (fun m => (m.precision, m.recall, m.f1_score))
      = some (1, 2 / 3, 4 / 5) := by
  refine ⟨by decide, by decide, by decide, by decide, ?_⟩
  have hb : genericEpochEnd ["a", "b"] [demoStep] = some (epochBundle [demoStep]) := rfl
  have hT : (allTargets [demoStep]).flatten = [true, false, true, true] := by decide
  have hP : (allPreds [demoStep]).flatten = [true, false, false, true] := by decide
  have h1 : countTP [true, false, true, true] [true, false, false, true] = 2 := by decide
  have h2 : countFP [true, false, true, true] [true, false, false, true] = 0 := by decide
  have h3 : countFN [true, false, true, true] [true, false, false, true] = 1 := by decide
  have hpre : precisionOf [true, false, true, true] [true, false, false, true] = 1 := by
    simp only [precisionOf, h1, h2]
    norm_num
  have hrec : recallOf [true, false, true, true] [true, false, false, true] = 2 / 3 := by
    simp only [recallOf, h1, h3]
    norm_num
  have hf1 : f1Of [true, false, true, true] [true, false, false, true] = 4 / 5 := by
    simp only [f1Of, hpre, hrec]
    norm_num
  rw [hb, Option.map_some']
  simp only [epochBundle, hT, hP]
  rw [hpre, hrec, hf1]

/-- Claim C8: a monitor configuration whose mode is not `min`/`max` or
whose name is not one of the four scalar metrics makes the run-start
validation fail, so the whole training run aborts with a config error
and no batch is processed. -/
theorem c8_config_validation (cfg : MonitorConfig) (epochs : List (List StepOutput))
    (h : cfg.mode ∉ validModes ∨ cfg.name ∉ validNames) :
    ∃ e, runTraining cfg epochs = Except.error e := by
  rcases h with h | h
  · exact ⟨.badMode cfg.mode, by simp [runTraining, onTrainStart, h]⟩
  · by_cases hm : cfg.mode ∈ validModes
    · exact ⟨.badName cfg.name, by simp [runTraining, onTrainStart, h, hm]⟩
    · exact ⟨.badMode cfg.mode, by simp [runTraining, onTrainStart, hm]⟩

/-- Claim C8 witness: the spec's example `{mode: "avg", name: "loss"}`
aborts the run with a config error. -/
theorem c8_witness :
    ∃ e, runTraining ⟨"avg", "loss"⟩ [] = Except.error e :=
  c8_config_validation ⟨"avg", "loss"⟩ [] (Or.inl (by decide))

/-- The four target/prediction agreement counters partition the paired
samples. -/
theorem countP_four (l : List (Bool × Bool)) :
    l.countP (fun q => !q.1 && !q.2) + l.countP (fun q => !q.1 && q.2) +
      l.countP (fun q => q.1 && !q.2) + l.countP (fun q => q.1 && q.2) = l.length := by
  induction l with
  | nil => simp
  | cons q l ih =>
    rcases q with ⟨t, p⟩
    simp only [List.countP_cons, List.length_cons]
    cases t <;> cases p <;> simp <;> omega

/-- The four cells of a per-class confusion matrix sum to the number of
paired samples of that class. -/
theorem confMat_cells_sum (ts ps : List Bool) :
    (confMatOf ts ps).tn + (confMatOf ts ps).fp + (confMatOf ts ps).fn +
      (confMatOf ts ps).tp = (ts.zip ps).length :=
  countP_four (ts.zip ps)

/-- A class column has one entry per sample row. -/
theorem col_length (c : ℕ) (m : List (List Bool)) : (col c m).length = m.length := by
  simp [col]

/-- Under shape well-formedness the prediction matrix has as many rows as
the target matrix. -/
theorem allPreds_length (n : ℕ) (steps : List StepOutput) (h : wfSteps n steps = true) :
    (allPreds steps).length = (allTargets steps).length := by
  induction steps with
  | nil => rfl
  | cons s ss ih =>
    simp only [wfSteps, List.all_cons, Bool.and_eq_true, beq_iff_eq] at h
    obtain ⟨⟨⟨-, -⟩, hlen⟩, hrest⟩ := h
    have h2 : (allPreds ss).length = (allTargets ss).length := ih hrest
    simp only [allPreds, allTargets, List.map_cons, List.flatten_cons,
      List.length_append, List.length_map] at h2 ⊢
    omega

/-- Inversion of the aggregation's success path: a produced bundle comes
from a non-empty, shape-well-formed buffer whose class-name count matches
the class dimension, and is exactly `epochBundle`. -/
theorem genericEpochEnd_some (classNames : List String) (steps : List StepOutput)
    (m : MetricsBundle) (h : genericEpochEnd classNames steps = some m) :
    steps ≠ [] ∧ wfSteps (numClasses steps) steps = true ∧
      classNames.length = numClasses steps ∧ m = epochBundle steps := by
  unfold genericEpochEnd at h
  split at h
  · exact absurd h (by simp)
  · next hemp =>
    split at h
    · next hwf =>
      split at h
      · next hcn =>
        exact ⟨by simpa using hemp, hwf, hcn, (Option.some.inj h).symm⟩
      · exact absurd h (by simp)
    · exact absurd h (by simp)

/-- Claim C6: every MetricsBundle the aggregation produces carries exactly
`num_classes` per-class 2×2 confusion matrices — as many as there are
class names — and the four cells of each matrix sum to the number of
samples aggregated in the epoch. -/
theorem c6_conf_mat_invariant (classNames : List String) (steps : List StepOutput)
    (m : MetricsBundle) (h : genericEpochEnd classNames steps = some m) :
    m.conf_mats.length = numClasses steps ∧
    m.conf_mats.length = classNames.length ∧
    ∀ cm ∈ m.conf_mats, cm.tn + cm.fp + cm.fn + cm.tp = totalSamples steps := by
  obtain ⟨-, hwf, hcn, rfl⟩ := genericEpochEnd_some classNames steps m h
  refine ⟨?_, ?_, ?_⟩
  · simp [epochBundle, multilabelConfusionMatrix]
  · simp [epochBundle, multilabelConfusionMatrix, hcn]
  · intro cm hcm
    simp only [epochBundle, multilabelConfusionMatrix, List.mem_map,
      List.mem_range] at hcm
    obtain ⟨c, -, rfl⟩ := hcm
    have hsum := confMat_cells_sum (col c (allTargets steps)) (col c (allPreds steps))
    have hlen := allPreds_length (numClasses steps) steps hwf
    simpa [List.length_zip, col_length, hlen, totalSamples] using hsum

/-- Claim C6 witness: the invariant at a concrete two-class epoch. -/
theorem c6_witness :
    demoBundle.conf_mats.length = numClasses [demoStep] ∧
    demoBundle.conf_mats.length = (["a", "b"] : List String).length ∧
    ∀ cm ∈ demoBundle.conf_mats, cm.tn + cm.fp + cm.fn + cm.tp = totalSamples [demoStep] :=
  c6_conf_mat_invariant ["a", "b"] [demoStep] demoBundle rfl

/-- An all-zero prediction column makes TP and FP vanish. -/
theorem counts_of_preds_false (ts ps : List Bool) (hp : ∀ b ∈ ps, b = false) :
    countTP ts ps = 0 ∧ countFP ts ps = 0 := by
  constructor
  · rw [countTP, List.countP_eq_zero]
    intro q hq
    have := hp q.2 (List.of_mem_zip hq).2
    simp [this]
  · rw [countFP, List.countP_eq_zero]
    intro q hq
    have := hp q.2 (List.of_mem_zip hq).2
    simp [this]

/-- An all-zero target column makes TP and FN vanish. -/
theorem counts_of_targets_false (ts ps : List Bool) (ht : ∀ b ∈ ts, b = false) :
    countTP ts ps = 0 ∧ countFN ts ps = 0 := by
  constructor
  · rw [countTP, List.countP_eq_zero]
    intro q hq
    have := ht q.1 (List.of_mem_zip hq).1
    simp [this]
  · rw [countFN, List.countP_eq_zero]
    intro q hq
    have := ht q.1 (List.of_mem_zip hq).1
    simp [this]

/-- When both columns are all-zero every paired sample is a true
negative. -/
theorem countTN_of_all_false (ts ps : List Bool) (ht : ∀ b ∈ ts, b = false)
    (hp : ∀ b ∈ ps, b = false) : countTN ts ps = (ts.zip ps).length := by
  rw [countTN, List.countP_eq_length]
  intro q hq
  have h1 := ht q.1 (List.of_mem_zip hq).1
  have h2 := hp q.2 (List.of_mem_zip hq).2
  simp [h1, h2]

/-- Claim C7: a class whose target column and thresholded prediction
column are both all-zero gets precision 0 and recall 0 in the per-class
report — the 0/0 ratios default to 0 instead of failing — and its
confusion matrix is `[[N, 0], [0, 0]]` with `N` the number of samples. -/
theorem c7_degenerate_class (classNames : List String) (steps : List StepOutput)
    (m : MetricsBundle) (c : ℕ) (h : genericEpochEnd classNames steps = some m)
    (hc : c < numClasses steps)
    (ht : ∀ b ∈ col c (allTargets steps), b = false)
    (hp : ∀ b ∈ col c (allPreds steps), b = false) :
    (m.report.map (fun s => s.precision))[c]? = some 0 ∧
    (m.report.map (fun s => s.recall))[c]? = some 0 ∧
    m.conf_mats[c]? = some ⟨totalSamples steps, 0, 0, 0⟩ := by
  obtain ⟨-, hwf, -, rfl⟩ := genericEpochEnd_some classNames steps m h
  obtain ⟨htp, hfp⟩ :=
    counts_of_preds_false (col c (allTargets steps)) (col c (allPreds steps)) hp
  obtain ⟨-, hfn⟩ :=
    counts_of_targets_false (col c (allTargets steps)) (col c (allPreds steps)) ht
  have htn :=
    countTN_of_all_false (col c (allTargets steps)) (col c (allPreds steps)) ht hp
  have hlen := allPreds_length (numClasses steps) steps hwf
  have hzip : ((col c (allTargets steps)).zip (col c (allPreds steps))).length
      = totalSamples steps := by
    simp [List.length_zip, col_length, hlen, totalSamples]
  refine ⟨?_, ?_, ?_⟩
  · simp only [epochBundle, List.map_map, List.getElem?_map, List.getElem?_range hc,
      Option.map_some', Function.comp]
    simp [classStatsOf, precisionOf, htp, hfp]
  · simp only [epochBundle, List.map_map, List.getElem?_map, List.getElem?_range hc,
      Option.map_some', Function.comp]
    simp [classStatsOf, recallOf, htp, hfn]
  · simp only [epochBundle, multilabelConfusionMatrix, List.getElem?_map,
      List.getElem?_range hc, Option.map_some']
    rw [confMatOf, htp, hfp, hfn, htn, hzip]

/-- Claim C7 witness: the second class of `degenStep` has all-zero
targets and predictions; its report entries are 0 and its confusion
matrix is `[[2, 0], [0, 0]]`. -/
theorem c7_witness :
    (degenBundle.report.map (fun s => s.precision))[1]? = some 0 ∧
    (degenBundle.report.map (fun s => s.recall))[1]? = some 0 ∧
    degenBundle.conf_mats[1]? = some ⟨totalSamples [degenStep], 0, 0, 0⟩ :=
  c7_degenerate_class ["a", "b"] [degenStep] degenBundle 1 rfl (by decide)
    (by decide) (by decide)

/-- Claim C10: the aggregation returns a bundle only for a non-empty
phase buffer, in which case the reported loss is the arithmetic mean
`sum(all_loss) / len(all_loss)` of the per-batch losses; on the empty
buffer it fails (the mean would divide by zero) instead of returning a
MetricsBundle. -/
theorem c10_nonempty_aggregation (classNames : List String) (steps : List StepOutput)
    (m : MetricsBundle) (h : genericEpochEnd classNames steps = some m) :
    steps ≠ [] ∧
    m.loss = (steps.map (fun s => s.loss)).sum / (steps.length : ℚ) ∧
    genericEpochEnd classNames [] = none := by
  obtain ⟨hne, -, -, rfl⟩ := genericEpochEnd_some classNames steps m h
  exact ⟨hne, rfl, by simp [genericEpochEnd]⟩

/-- Claim C10 witness: the one-batch epoch aggregates with mean loss
`1/1`, and the empty buffer yields no bundle. -/
theorem c10_witness :
    ([demoStep] : List StepOutput) ≠ [] ∧
    demoBundle.loss
      = (([demoStep] : List StepOutput).map (fun s => s.loss)).sum
        / ((([demoStep] : List StepOutput).length : ℕ) : ℚ) ∧
    genericEpochEnd ["a", "b"] [] = none :=
  c10_nonempty_aggregation ["a", "b"] [demoStep] demoBundle rfl

/-- The subplot-filling loop in closed form: the first
`min(num_matrices, num_names, grid)` axes are plots of the matrices in
order, titled with the class names truncated to 20 characters and with
the colorbar disabled; all remaining axes stay blank. -/
theorem fillCells_spec (n : ℕ) (cms : List ConfMat) (names : List String) :
    fillCells n cms names
      = (List.zipWith (fun cm name => SubplotCell.plot cm (name.take 20) false)
          cms names).take n
        ++ List.replicate (n - min (min cms.length names.length) n) SubplotCell.blank := by
  induction cms generalizing n names with
  | nil => cases n <;> simp [fillCells]
  | cons cm cms ih =>
    cases names with
    | nil => cases n <;> simp [fillCells]
    | cons name names =>
      cases n with
      | zero => simp [fillCells]
      | succ n =>
        simp [fillCells, ih]
        omega

/-- Claim C9 (counterexample): with 46 classes (and 46 confusion
matrices) the fixed 9×5 grid renders only 45 subplots, so not every class
in ClassNames gets one. -/
theorem c9_counterexample :
    (figureCells (List.replicate 46 ⟨0, 0, 0, 0⟩) (List.replicate 46 "water")).countP
        isPlotCell = 45 ∧
    (List.replicate 46 "water").length = 46 ∧ (45 : ℕ) ≠ 46 := by decide

/-- Claim C9 (amended): the diagnostic figure is a fixed 9×5 grid of 45
axes; the first `min(num_classes, 45)` classes (in order) each get a
subplot of their confusion matrix with no colorbar, titled with the class
name truncated to 20 characters, the remaining axes are blanked, and the
grid is submitted as one composite image tagged by split and step. -/
theorem c9_figure_layout (cms : List ConfMat) (names : List String)
    (split : String) (stp : ℕ) :
    figureCells cms names
      = (List.zipWith (fun cm name => SubplotCell.plot cm (name.take 20) false)
          cms names).take gridSize
        ++ List.replicate (gridSize - min (min cms.length names.length) gridSize)
            SubplotCell.blank ∧
    (figureCells cms names).length = gridSize ∧
    (logMetricsFigure cms names split stp).2 = ⟨"confusion matrix/" ++ split, stp⟩ := by
  refine ⟨fillCells_spec gridSize cms names, ?_, rfl⟩
  rw [figureCells, fillCells_spec]
  simp only [List.length_append, List.length_take, List.length_replicate,
    List.length_zipWith]
  omega

end BigEarthNet
